import Mathlib

/-!
Verification model of the GIPS shader-annotation compiler and pipeline glue.

The definitions below are a shallow embedding of the C++ sources:

* the Node loader of the richer ("authoritative") shader dialect,
  src/unnamed/part_002 (function GIPS::Node::load): comment-annotation
  extraction, the token-history declaration classifier, default-value
  capture, pass-mask bookkeeping and per-pass source assembly;
* the pipeline-change-request handler, src/src/gips_app.cpp
  (function GIPS::App::handlePCR): insert / remove / move index arithmetic
  on the node list and the active-stage ("show") index.

Code of the repository that is not under src/ (the string_util tokenizer,
gips_core.h defaults, the Pipeline container ops) is modelled from the
spec; each such definition carries a doc comment starting with
"Modelled from the spec:".  Machine floats are modelled as exact decimal
fractions (the dialect only parses plain decimal literals) and
the external GL compile/link step is modelled as always succeeding, so
that structural properties (pass counts, diagnostics, generated text) are
about the code that actually lives in this repository.
-/

namespace GIPS

set_option maxRecDepth 100000

/-- GLSL token classes, from the GLSLToken enum in src/unnamed/part_002. -/
inductive GLSLToken where
  | Other
  | Ignored
  | Uniform
  | Float
  | Vec2
  | Vec3
  | Vec4
  | RunSingle
  | RunPass1
  | RunPass2
  | RunPass3
  | RunPass4
  | OpenParens
  | CloseParens
deriving DecidableEq, Repr

/-- Pass input shapes, from the PassInput enum in src/unnamed/part_002. -/
inductive PassInput where
  | Coord
  | RGB
  | RGBA
deriving DecidableEq, Repr

/-- Pass output shapes, from the PassOutput enum in src/unnamed/part_002. -/
inductive PassOutput where
  | RGB
  | RGBA
deriving DecidableEq, Repr

/-- Modelled from the spec: gips_core.h is not under src/.  Parameter
semantic types as listed in the data model (Toggle, Value, Value2, Value3,
Value4, RGB, RGBA); the same constructors appear in src/src/gips_ui.cpp. -/
inductive ParameterType where
  | Toggle
  | Value
  | Value2
  | Value3
  | Value4
  | RGB
  | RGBA
deriving DecidableEq, Repr

/-- Modelled from the spec: gips_core.h is not under src/.  Coordinate
mapping modes pixel / relative / none; the constructors Pixel, None and
Relative are the ones assigned in src/unnamed/part_002. -/
inductive CoordMapMode where
  | None
  | Pixel
  | Relative
deriving DecidableEq, Repr

/-- Modelled from the spec: gips_core.h is not under src/.  The spec fixes
MaxPasses = 4 (passes run / run_pass1 .. run_pass4). -/
def MaxPasses : Nat := 4

/-- Diagnostic lines written to the err stream by Node::load in
src/unnamed/part_002, one constructor per distinct message. -/
inductive Diag where
  | onlyInParamComment (key : String)
  | requiresValue (key : String)
  | requiresNumericValue (key : String)
  | incompatibleFormat (key : String) (paramName : String)
  | badCoordMode (value : String)
  | badFilterMode (value : String)
  | unrecognizedToken (key : String)
  | unsupportedUniformType (name : String)
  | noRunFunction
  | missingIntermediatePasses
deriving DecidableEq, Repr

/-- Exact decimal number mant / 10 ^ frac, the model of the float values
the dialect parses (it only ever parses plain decimal literals, which are
exact). -/
structure DecFloat where
  mant : Int
  frac : Nat
deriving DecidableEq, Repr

/-- Normal form of a decimal number: strip trailing zeros of the
mantissa, so that equal decimal values are structurally equal (1.0 and 1
coincide). -/
def decNorm (mant : Int) : Nat → DecFloat
  | 0 => ⟨mant, 0⟩
  | f + 1 => if mant % 10 = 0 then decNorm (mant / 10) f else ⟨mant, f + 1⟩

/-- Integer-valued decimal. -/
def DecFloat.ofInt (n : Int) : DecFloat := ⟨n, 0⟩

/-- Modelled from the spec: gips_core.h is not under src/.  One Parameter
record; the m_format auto-scaling of Node::load lines 329-339 (which only
rewrites m_format using float log10) is not modelled, no claim depends on
m_format.  Field defaults (value 0, min 0, max 1) are the spec-consistent
slider defaults; no claim depends on them either. -/
structure Parameter where
  m_name : String := ""
  m_desc : String := ""
  m_type : ParameterType := ParameterType.Value
  m_minValue : DecFloat := DecFloat.ofInt 0
  m_maxValue : DecFloat := DecFloat.ofInt 1
  m_value : List DecFloat := [DecFloat.ofInt 0, DecFloat.ofInt 0, DecFloat.ofInt 0, DecFloat.ofInt 0]
  m_format : String := ""
deriving DecidableEq, Repr

/-- Fixed four-slot array, modelling the C arrays of size MaxPasses = 4. -/
structure Quad (α : Type) where
  q0 : α
  q1 : α
  q2 : α
  q3 : α
deriving DecidableEq, Repr

/-- Read slot i of a Quad (indices beyond 3 alias the last slot; all
source reads use indices 0..3). -/
def Quad.get {α : Type} (q : Quad α) (i : Nat) : α :=
  match i with
  | 0 => q.q0
  | 1 => q.q1
  | 2 => q.q2
  | _ => q.q3

/-- Write slot i of a Quad (writes beyond slot 3 go to the last slot; all
source writes use indices 0..3). -/
def Quad.set {α : Type} (q : Quad α) (i : Nat) (a : α) : Quad α :=
  match i with
  | 0 => { q with q0 := a }
  | 1 => { q with q1 := a }
  | 2 => { q with q2 := a }
  | _ => { q with q3 := a }

/-- Constant Quad. -/
def Quad.fill {α : Type} (a : α) : Quad α := ⟨a, a, a, a⟩

/-- Per-pass sticky configuration stored in m_passes (texFilter and
coordMode assignments in src/unnamed/part_002 lines 322-323 and 355). -/
structure PassCfg where
  texFilter : Bool := true
  coordMode : CoordMapMode := CoordMapMode.None
deriving DecidableEq, Repr

/-- Modelled from the spec: string_util is not under src/.  Identifier
characters accepted by the key/value scanner (and by the token splitter):
alphanumerics plus underscore, dot, minus and plus, so that annotation
values such as -1 or 0.2 form a single run (used by the built-in
saturation source, at symbol off=1 on=-1 and max=0.2). -/
def isident (c : Char) : Bool :=
  c.isAlphanum || c = '_' || c = '.' || c = '-' || c = '+'

/-- Digit-run parser helper for the strtof model: accumulated value,
number of digits consumed, rest of the input. -/
def parseDigits : Nat → Nat → List Char → Nat × Nat × List Char
  | acc, n, [] => (acc, n, [])
  | acc, n, c :: r =>
    if c.isDigit then parseDigits (acc * 10 + (c.toNat - 48)) (n + 1) r
    else (acc, n, c :: r)

/-- Modelled from the spec: strtof (libc) full-string parse of the plain
decimal literals the annotation dialect uses: optional sign, digits,
optional fraction; at least one digit; the whole string must be consumed
(Node::load checks end and not *end).  Exponent / hex / inf forms never
occur in the dialect and are not modelled. -/
def parseNum (s : String) : Option DecFloat :=
  let cs := s.toList
  let signed : Int × List Char :=
    match cs with
    | '-' :: r => (-1, r)
    | '+' :: r => (1, r)
    | _ => (1, cs)
  let ip := parseDigits 0 0 signed.2
  match ip.2.2 with
  | '.' :: r =>
    let fp := parseDigits 0 0 r
    if fp.2.2 = [] ∧ ip.2.1 + fp.2.1 > 0 then
      some (decNorm (signed.1 * ((ip.1 * 10 ^ fp.2.1 + fp.1 : Nat) : Int)) fp.2.1)
    else none
  | [] => if ip.2.1 > 0 then some (decNorm (signed.1 * (ip.1 : Int)) 0) else none
  | _ => none

/-- Character containment in a token (strchr-style test used for the
equals-sign and semicolon checks of Node::load). -/
def strHas (s : String) (c : Char) : Bool :=
  s.toList.any (fun x => x = c)

/-- The isNum test of Node::load on an annotation value: strtof must have
consumed the whole value.  An empty value string (as in a bare key= form)
counts as numeric 0, matching strtof returning end = start on it. -/
def numOk (v : Option String) : Bool :=
  match v with
  | none => false
  | some s => s.toList.isEmpty || (parseNum s).isSome

/-- The fval read by Node::load from an annotation value (0 when absent
or non-numeric, as strtof returns 0 on no conversion). -/
def fvalOf (v : Option String) : DecFloat :=
  match v with
  | none => DecFloat.ofInt 0
  | some s => (parseNum s).getD (DecFloat.ofInt 0)

/-- Lowercase-fold a character run, as the in-place tolower loops of
Node::load do to keys and values. -/
def lowerStr (cs : List Char) : String :=
  String.mk (cs.map Char.toLower)

/-- The at-sign token scan of Node::load (src/unnamed/part_002 lines
134-223) over one comment body: find each at-sign not preceded by an
alphanumeric, take the following identifier run as the key (lowercased),
after an equals sign take another identifier run as the value
(lowercased), splice the token plus one terminator character out of the
text, and continue behind the splice.  Returns the ordered key/value list
and the remaining description text.  The fuel argument only bounds the
recursion; scanFrom consumes at least one input character per step, so
fuel = length + 1 never runs out. -/
def scanFrom : Nat → Char → List Char → List (String × Option String) × List Char
  | 0, _, cs => ([], cs)
  | _ + 1, _, [] => ([], [])
  | fuel + 1, prev, '@' :: rest =>
    if prev.isAlphanum then
      let r := scanFrom fuel '@' rest
      (r.1, '@' :: r.2)
    else
      let keyC := rest.takeWhile isident
      let r1 := rest.drop keyC.length
      match r1 with
      | '=' :: r2 =>
        let valC := r2.takeWhile isident
        let r3 := r2.drop valC.length
        let r4 := match r3 with
          | [] => []
          | _ :: t => t
        let r := scanFrom fuel prev r4
        ((lowerStr keyC, some (lowerStr valC)) :: r.1, r.2)
      | _ =>
        let r4 := match r1 with
          | [] => []
          | _ :: t => t
        let r := scanFrom fuel prev r4
        ((lowerStr keyC, none) :: r.1, r.2)
  | fuel + 1, _, c :: rest =>
    let r := scanFrom fuel c rest
    (r.1, c :: r.2)

/-- Strip the Doxygen-style bang right after the comment delimiter
(content[0] == '!' handling in Node::load). -/
def commentBody (content : String) : List Char :=
  match content.toList with
  | '!' :: r => r
  | cs => cs

/-- Ordered annotation key/value pairs of one comment body.  The initial
previous-character is the second delimiter character, never alphanumeric. -/
def commentToks (content : String) : List (String × Option String) :=
  (scanFrom (content.length + 1) '/' (commentBody content)).1

/-- Comment text left over after the annotation tokens are spliced out. -/
def commentRest (content : String) : List Char :=
  (scanFrom (content.length + 1) '/' (commentBody content)).2

/-- Surrounding-whitespace trim (skipWhitespace / trimTrailingWhitespace
of string_util, applied to the comment description in Node::load). -/
def trimStr (cs : List Char) : String :=
  String.mk (((cs.dropWhile Char.isWhitespace).reverse.dropWhile Char.isWhitespace).reverse)

/-- Apply an update to the last element of a list (the C++ code holds a
pointer to newParams.back(); a set current parameter is always the last
pushed one). -/
def mapLast {α : Type} (f : α → α) : List α → List α
  | [] => []
  | [p] => [f p]
  | p :: r => p :: mapLast f r

/-- Analyzer state of Node::load (local variables of the GLSL tokenizer
loop in src/unnamed/part_002 lines 63-326).  Diagnostics are returned
separately by every step function because the err stream is append-only
and never read back.  The inputs/outputs arrays are uninitialized stack
arrays in the C++ code and are only ever read at indices whose passMask
bit was set (which writes them first); the model gives them fixed
defaults. -/
structure LoadState where
  params : List Parameter := []
  hasParam : Bool := false
  paramDataType : GLSLToken := GLSLToken.Other
  paramValueIndex : Int := -1
  inParamStatement : Bool := false
  currentPass : Nat := 0
  passMask : Quad Bool := Quad.fill false
  singlePass : Bool := false
  inputs : Quad PassInput := Quad.fill PassInput.Coord
  outputs : Quad PassOutput := Quad.fill PassOutput.RGB
  texFilter : Bool := true
  coordMode : CoordMapMode := CoordMapMode.Pixel
  passes : Quad PassCfg := Quad.fill {}
  tt : Quad GLSLToken := Quad.fill GLSLToken.Other
deriving DecidableEq, Repr

/-- Name of the current parameter (param->m_name in the diagnostics). -/
def lastName (st : LoadState) : String :=
  match st.params.getLast? with
  | some p => p.m_name
  | none => ""

/-- setParamType success case: overwrite the current parameter type. -/
def setLastType (st : LoadState) (pt : ParameterType) : LoadState :=
  { st with params := mapLast (fun p => { p with m_type := pt }) st.params }

/-- Evaluation of one extracted annotation key/value pair: the if/else
chain of src/unnamed/part_002 lines 200-218 together with its needParam /
needValue / needNum / setParamType helpers (lines 163-198).  Returns the
updated state and the diagnostics emitted for this token, in order. -/
def evalAnnot (st : LoadState) (key : String) (value : Option String) :
    LoadState × List Diag :=
  let isNum := numOk value
  let fval := fvalOf value
  if key = "min" ∨ key = "off" then
    if st.hasParam then
      if isNum then
        ({ st with params := mapLast (fun p => { p with m_minValue := fval }) st.params }, [])
      else (st, [Diag.requiresNumericValue key])
    else (st, [Diag.onlyInParamComment key])
  else if key = "max" ∨ key = "on" then
    if st.hasParam then
      if isNum then
        ({ st with params := mapLast (fun p => { p with m_maxValue := fval }) st.params }, [])
      else (st, [Diag.requiresNumericValue key])
    else (st, [Diag.onlyInParamComment key])
  else if key = "unit" then
    if st.hasParam then
      match value with
      | some v =>
        ({ st with params := mapLast (fun p => { p with m_format := v }) st.params }, [])
      | none => (st, [Diag.requiresValue key])
    else (st, [Diag.onlyInParamComment key])
  else if key = "toggle" ∨ key = "switch" then
    if st.hasParam then
      if st.paramDataType = GLSLToken.Float then (setLastType st ParameterType.Toggle, [])
      else (st, [Diag.incompatibleFormat key (lastName st)])
    else (st, [Diag.onlyInParamComment key])
  else if key = "color" then
    if st.hasParam then
      if st.paramDataType = GLSLToken.Vec3 then (setLastType st ParameterType.RGB, [])
      else if st.paramDataType = GLSLToken.Vec4 then (setLastType st ParameterType.RGBA, [])
      else (st, [Diag.incompatibleFormat key (lastName st)])
    else (st, [Diag.onlyInParamComment key])
  else if key = "coord" ∨ key = "coords" ∨ key = "map" then
    match value with
    | none => (st, [Diag.requiresValue key])
    | some v =>
      if v = "pixel" then ({ st with coordMode := CoordMapMode.Pixel }, [])
      else if v = "none" then ({ st with coordMode := CoordMapMode.None }, [])
      else if v = "relative" ∨ v = "rel" then ({ st with coordMode := CoordMapMode.Relative }, [])
      else (st, [Diag.badCoordMode v])
  else if key = "filter" ∨ key = "filt" then
    match value with
    | none => (st, [Diag.requiresValue key])
    | some v =>
      if v = "1" ∨ v = "on" ∨ v = "linear" ∨ v = "bilinear" then
        ({ st with texFilter := true }, [])
      else if v = "0" ∨ v = "off" ∨ v = "nearest" ∨ v = "point" then
        ({ st with texFilter := false }, [])
      else (st, [Diag.badFilterMode v])
  else (st, [Diag.unrecognizedToken key])

/-- Fold evalAnnot over the annotation tokens of one comment, collecting
diagnostics in order. -/
def evalAnnList (st : LoadState) : List (String × Option String) → LoadState × List Diag
  | [] => (st, [])
  | kv :: r =>
    let s1 := evalAnnot st kv.1 kv.2
    let s2 := evalAnnList s1.1 r
    (s2.1, s1.2 ++ s2.2)

/-- Comment handling of Node::load (lines 122-236): extract and evaluate
the annotation tokens, then, when a parameter is current, store the
trimmed leftover text as its description if nonempty; finally forget the
current parameter. -/
def stepComment (st : LoadState) (content : String) : LoadState × List Diag :=
  let r := evalAnnList st (commentToks content)
  let desc := trimStr (commentRest content)
  let st1 := r.1
  let st2 :=
    if st1.hasParam ∧ desc ≠ "" then
      { st1 with params := mapLast (fun p => { p with m_desc := desc }) st1.params }
    else st1
  ({ st2 with hasParam := false }, r.2)

/-- The tokenMap lookup table of src/unnamed/part_002 lines 43-59
(StringUtil::lookup returns the fallback entry Other on no match). -/
def lookupTok (s : String) : GLSLToken :=
  if s = "in" then GLSLToken.Ignored
  else if s = "uniform" then GLSLToken.Uniform
  else if s = "float" then GLSLToken.Float
  else if s = "vec2" then GLSLToken.Vec2
  else if s = "vec3" then GLSLToken.Vec3
  else if s = "vec4" then GLSLToken.Vec4
  else if s = "run" then GLSLToken.RunSingle
  else if s = "run_pass1" then GLSLToken.RunPass1
  else if s = "run_pass2" then GLSLToken.RunPass2
  else if s = "run_pass3" then GLSLToken.RunPass3
  else if s = "run_pass4" then GLSLToken.RunPass4
  else if s = "(" then GLSLToken.OpenParens
  else if s = ")" then GLSLToken.CloseParens
  else if s = ")\x7b" then GLSLToken.CloseParens
  else GLSLToken.Other

/-- Fresh parameter pushed for a recognized uniform declaration, with the
arity-implied default type (lines 250-261 of src/unnamed/part_002). -/
def newParam (name : String) (dt : GLSLToken) : Parameter :=
  { m_name := name,
    m_type :=
      match dt with
      | GLSLToken.Float => ParameterType.Value
      | GLSLToken.Vec2 => ParameterType.Value2
      | GLSLToken.Vec3 => ParameterType.Value3
      | GLSLToken.Vec4 => ParameterType.Value4
      | _ => ParameterType.Value }

/-- The pass-declaration history pattern of lines 295-298:
history = [OUTTYPE, run-entry, open-parenthesis, INTYPE]. -/
def passPattern (tt : Quad GLSLToken) : Prop :=
  (tt.q3 = GLSLToken.Vec3 ∨ tt.q3 = GLSLToken.Vec4)
  ∧ (tt.q2 = GLSLToken.RunSingle ∨ tt.q2 = GLSLToken.RunPass1 ∨ tt.q2 = GLSLToken.RunPass2
     ∨ tt.q2 = GLSLToken.RunPass3 ∨ tt.q2 = GLSLToken.RunPass4)
  ∧ tt.q1 = GLSLToken.OpenParens
  ∧ (tt.q0 = GLSLToken.Vec2 ∨ tt.q0 = GLSLToken.Vec3 ∨ tt.q0 = GLSLToken.Vec4)

instance (tt : Quad GLSLToken) : Decidable (passPattern tt) := by
  unfold passPattern; infer_instance

/-- The check-for-new-uniform section of Node::load (lines 246-269): a
recognized declared type opens a fresh Parameter, an unsupported type is
diagnosed. -/
def uniformCheck (st : LoadState) (s : String) (tt : Quad GLSLToken) : LoadState × List Diag :=
  if tt.q1 = GLSLToken.Float ∨ tt.q1 = GLSLToken.Vec2
     ∨ tt.q1 = GLSLToken.Vec3 ∨ tt.q1 = GLSLToken.Vec4 then
    ({ st with
        params := st.params ++ [newParam s tt.q1],
        hasParam := true,
        paramDataType := tt.q1,
        paramValueIndex := -1,
        inParamStatement := true }, [])
  else
    ({ st with inParamStatement := false }, [Diag.unsupportedUniformType s])

/-- The default-value capture section of Node::load (lines 277-285):
inside a uniform default assignment, a token that parses fully as a
number fills the next value slot. -/
def captureValue (st : LoadState) (s : String) : LoadState :=
  if st.hasParam ∧ st.inParamStatement
     ∧ (0 : Int) ≤ st.paramValueIndex ∧ st.paramValueIndex < (4 : Int) then
    match parseNum s with
    | some f =>
      { st with
          params := mapLast
            (fun p => { p with m_value := p.m_value.set st.paramValueIndex.toNat f })
            st.params,
          paramValueIndex := st.paramValueIndex + 1 }
    | none => st
  else st

/-- The check-pass-definition section of Node::load (lines 293-324):
select the pass index and single-pass flag from the entry-point token,
mark the passMask bit, and record input/output shapes and the sticky
texFilter / coordMode configuration for that pass. -/
def passCheck (st : LoadState) (tt : Quad GLSLToken) : LoadState :=
  let cp : Nat :=
    match tt.q2 with
    | GLSLToken.RunSingle => 0
    | GLSLToken.RunPass1 => 0
    | GLSLToken.RunPass2 => 1
    | GLSLToken.RunPass3 => 2
    | _ => 3
  let sp : Bool :=
    match tt.q2 with
    | GLSLToken.RunSingle => true
    | GLSLToken.RunPass1 => false
    | _ => st.singlePass
  let st := { st with currentPass := cp, singlePass := sp,
                      passMask := st.passMask.set cp true }
  if MaxPasses ≤ st.currentPass then st
  else
    let inp :=
      match tt.q0 with
      | GLSLToken.Vec2 => PassInput.Coord
      | GLSLToken.Vec3 => PassInput.RGB
      | _ => PassInput.RGBA
    let outp :=
      match tt.q3 with
      | GLSLToken.Vec3 => PassOutput.RGB
      | _ => PassOutput.RGBA
    { st with
        inputs := st.inputs.set cp inp,
        outputs := st.outputs.set cp outp,
        passes := st.passes.set cp { texFilter := st.texFilter, coordMode := st.coordMode } }

/-- Non-comment token handling of Node::load (lines 238-325): history
update, uniform-declaration recognition, default-value capture, end of
statement, and pass-declaration recognition, in source order. -/
def stepTok (st : LoadState) (s : String) : LoadState × List Diag :=
  let newTT := lookupTok s
  if newTT = GLSLToken.Ignored then (st, [])
  else
    let tt : Quad GLSLToken := ⟨newTT, st.tt.q0, st.tt.q1, st.tt.q2⟩
    let st := { st with tt := tt }
    if tt.q2 = GLSLToken.Uniform then uniformCheck st s tt
    else if st.hasParam ∧ st.inParamStatement ∧ st.paramValueIndex < (0 : Int) ∧ strHas s '=' then
      ({ st with paramValueIndex := 0 }, [])
    else
      let st := captureValue st s
      if strHas s ';' then ({ st with inParamStatement := false }, [])
      else if passPattern tt then (passCheck st tt, [])
      else (st, [])

/-- One lexeme of the source text: either one comment body (delimiters
already stripped) or one plain token. -/
inductive Lexeme where
  | comment (content : String)
  | tok (s : String)
deriving DecidableEq, Repr

/-- Dispatch one lexeme of the main loop of Node::load. -/
def stepLex (st : LoadState) : Lexeme → LoadState × List Diag
  | Lexeme.comment c => stepComment st c
  | Lexeme.tok s => stepTok st s

/-- The main analysis loop of Node::load over a lexeme sequence,
concatenating diagnostics in order. -/
def runLex (st : LoadState) : List Lexeme → LoadState × List Diag
  | [] => (st, [])
  | lx :: r =>
    let s1 := stepLex st lx
    let s2 := runLex s1.1 r
    (s2.1, s1.2 ++ s2.2)

/-- Whitespace as separator (isspace in the C scanner). -/
def isWs (c : Char) : Bool :=
  c = ' ' ∨ c = '\t' ∨ c = '\n' ∨ c = '\x0d'

/-- Split a multi-line comment body from the text behind its closing
delimiter (extendUntil of the star-slash pair; an unterminated comment
runs to end of input). -/
def splitClose : List Char → List Char × List Char
  | [] => ([], [])
  | '*' :: '/' :: r => ([], r)
  | c :: r =>
    let p := splitClose r
    (c :: p.1, p.2)

/-- Take a run of non-identifier, non-whitespace characters, stopping in
front of a comment opener (so punctuation like a close-parenthesis plus
open-brace stays one token, matching the tokenMap entries). -/
def takeOther : List Char → List Char × List Char
  | [] => ([], [])
  | '/' :: '/' :: r => ([], '/' :: '/' :: r)
  | '/' :: '*' :: r => ([], '/' :: '*' :: r)
  | c :: r =>
    if isWs c ∨ isident c then ([], c :: r)
    else
      let p := takeOther r
      (c :: p.1, p.2)

/-- Modelled from the spec: the string_util Tokenizer is not under src/.
Lexer contract of spec section 4.1: whitespace separates and is not
emitted; comments are single lexemes spanning delimiter to delimiter
(double-slash to end of line, slash-star to star-slash); identifier and
number runs and punctuation runs are emitted as plain tokens.  The fuel
argument only bounds recursion (every step consumes at least one input
character). -/
def tokenizeAux : Nat → List Char → List Lexeme
  | 0, _ => []
  | _ + 1, [] => []
  | fuel + 1, c :: rest =>
    if isWs c then tokenizeAux fuel rest
    else if c = '/' ∧ rest.head? = some '/' then
      let body := rest.tail.takeWhile (fun x => ¬ x = '\n')
      Lexeme.comment (String.mk body) :: tokenizeAux fuel (rest.tail.dropWhile (fun x => ¬ x = '\n'))
    else if c = '/' ∧ rest.head? = some '*' then
      let p := splitClose rest.tail
      Lexeme.comment (String.mk p.1) :: tokenizeAux fuel p.2
    else if isident c then
      let body := rest.takeWhile isident
      Lexeme.tok (String.mk (c :: body)) :: tokenizeAux fuel (rest.drop body.length)
    else
      let p := takeOther rest
      Lexeme.tok (String.mk (c :: p.1)) :: tokenizeAux fuel p.2

/-- Modelled from the spec: lexing of a whole source text. -/
def tokenize (code : String) : List Lexeme :=
  tokenizeAux (code.length + 1) code.toList

/-- Length of the contiguous declared-pass run starting at pass 0: the
pass-generation loop of Node::load (line 348) counts up while the next
passMask bit is set, capped at MaxPasses = 4. -/
def contigLen (m : Quad Bool) : Nat :=
  if m.q0 = false then 0
  else if m.q1 = false then 1
  else if m.q2 = false then 2
  else if m.q3 = false then 3
  else 4

/-- The passMask bits left over after the generation loop cleared the
bits of the n assembled passes. -/
def clearBelow (m : Quad Bool) (n : Nat) : Quad Bool :=
  ⟨m.q0 ∧ decide (n ≤ 0), m.q1 ∧ decide (n ≤ 1), m.q2 ∧ decide (n ≤ 2), m.q3 ∧ decide (n ≤ 3)⟩

/-- The if-passMask test after the loop: any bit still set. -/
def maskAny (m : Quad Bool) : Bool :=
  m.q0 ∨ m.q1 ∨ m.q2 ∨ m.q3

/-- Fixed fragment-shader header emitted per pass (lines 360-371); the
coordinate-remap uniform and the pixel helper only for Position input. -/
def headerPart (input : PassInput) : String :=
  "#version 330 core\n#line 8000 0\nin vec2 gips_pos;\nout vec4 gips_frag;\nuniform sampler2D gips_tex;\nuniform vec2 gips_image_size;\n"
  ++ (if input = PassInput.Coord then
        "uniform vec4 gips_map2tex;\nvec4 pixel(in vec2 pos) \x7b\n  return texture(gips_tex, gips_map2tex.xy + pos * gips_map2tex.zw);\n\x7d\n"
      else "")

/-- Generated main() prologue of one pass (lines 377-382): the implicit
pre-fetch of the source pixel for color inputs. -/
def mainPrologue (input : PassInput) : String :=
  "\n#line 9000 0\nvoid main() \x7b\n"
  ++ (if ¬ input = PassInput.Coord then "  vec4 color = texture(gips_tex, gips_pos);\n" else "")

/-- Generated output statement of one pass (lines 384-404): the
gips_frag assignment with the optional vec4 coercion wrapper, the
suffixed entry-point call, the shape-appropriate argument and the
appended alpha component. -/
def outStmtGen (input : PassInput) (output : PassOutput) (i : Nat) (sp : Bool) : String :=
  "  gips_frag = "
  ++ (if output = PassOutput.RGB then "vec4(" else "")
  ++ "run"
  ++ (if ¬ i = 0 ∨ sp = false then "_pass" ++ toString (i + 1) else "")
  ++ (match input with
      | PassInput.Coord => "(gips_pos)"
      | PassInput.RGB => "(color.rgb)"
      | PassInput.RGBA => "(color)")
  ++ (if output = PassOutput.RGB then
        (if input = PassInput.Coord then ", 1.0)" else ", color.a)")
      else "")
  ++ ";\n\x7d\n"

/-- Generated main body of one pass: prologue plus output statement. -/
def mainBody (input : PassInput) (output : PassOutput) (i : Nat) (sp : Bool) : String :=
  mainPrologue input ++ outStmtGen input output i sp

/-- Complete assembled source of one pass: header, line-tagged user code,
generated main body (the C++ code accumulates these pieces into one
stream; the per-pass emission is exactly this text). -/
def passSource (input : PassInput) (output : PassOutput) (i : Nat) (sp : Bool)
    (code : String) : String :=
  headerPart input ++ "#line 1 " ++ toString (i + 1) ++ "\n" ++ code
  ++ mainBody input output i sp

/-- Result of Node::load visible to the rest of the program: compiled
pass count, parameter list, diagnostics, per-pass configuration and
shapes, assembled per-pass sources, and the success flag
(m_passCount > 0). -/
structure NodeResult where
  passCount : Nat
  params : List Parameter
  errs : List Diag
  passes : Quad PassCfg
  inputs : Quad PassInput
  outputs : Quad PassOutput
  assembled : List String
  success : Bool
deriving DecidableEq, Repr

/-- Pass-generation phase of Node::load after the analysis loop (lines
341-449): require pass 0, walk the contiguous declared prefix in
increasing order, force coordMode to None for passes whose input is not
Position, record the assembled sources, and diagnose declared passes
beyond the prefix.  The external GL compile/link of each assembled source
is modelled as succeeding, so the structural pass count is exact. -/
def finalize (code : String) (st : LoadState) (ds : List Diag) : NodeResult :=
  if st.passMask.q0 = false then
    { passCount := 0, params := st.params, errs := ds ++ [Diag.noRunFunction],
      passes := st.passes, inputs := st.inputs, outputs := st.outputs,
      assembled := [], success := false }
  else
    let n := contigLen st.passMask
    let over := fun (i : Nat) =>
      if i < n ∧ ¬ st.inputs.get i = PassInput.Coord then
        { st.passes.get i with coordMode := CoordMapMode.None }
      else st.passes.get i
    let errs := ds ++ (if maskAny (clearBelow st.passMask n) then [Diag.missingIntermediatePasses] else [])
    { passCount := n, params := st.params, errs := errs,
      passes := ⟨over 0, over 1, over 2, over 3⟩,
      inputs := st.inputs, outputs := st.outputs,
      assembled := (List.range n).map
        (fun i => passSource (st.inputs.get i) (st.outputs.get i) i st.singlePass code),
      success := decide (0 < n) }

/-- Node::load of the authoritative dialect on a source text (the
analysis loop over the lexed text, then the generation phase).  The
file-to-text step is external to src/ (the snapshot hardcodes its
sources); this model takes the source text directly, following the
raw-text contract of the spec. -/
def load (code : String) : NodeResult :=
  let r := runLex {} (tokenize code)
  finalize code r.1 r.2

/-- Test source for C3: the uniform declaration quoted by the spec with
no following comment, plus a minimal single-pass entry point. -/
def src3 : String :=
  "uniform vec3 c = vec3(1,0,0);\nvec3 run ( vec3 x ) \x7b return x ; \x7d"

/-- Test source for C9: a color override on a float uniform, plus a
minimal single-pass entry point. -/
def srcColorOnFloat : String :=
  "uniform float x;  // @color\nvec3 run ( vec3 c ) \x7b return c ; \x7d"

/-- Test source for C5: run_pass1 through run_pass3 declared, run_pass4
absent (a contiguous three-pass prefix). -/
def srcPass123 : String :=
  "vec4 run_pass1 ( vec4 c ) \x7b \x7d\nvec4 run_pass2 ( vec4 c ) \x7b \x7d\nvec4 run_pass3 ( vec4 c ) \x7b \x7d"

/-- Test source for C5: run_pass1 and run_pass3 declared but run_pass2
missing (a gap after pass 0). -/
def srcPass13 : String :=
  "vec4 run_pass1 ( vec4 c ) \x7b \x7d\nvec4 run_pass3 ( vec4 c ) \x7b \x7d"

/-- Test source for C2: a Position-input pass with no annotation at all. -/
def srcCoordRun : String :=
  "vec4 run ( vec2 p ) \x7b return pixel ( p ) ; \x7d"

/-- Pipeline-plus-view state handled by App::handlePCR in
src/src/gips_app.cpp: the ordered node list (nodes identified by their
source path) and the active-stage (show) index, an int where 0 denotes
the virtual input stage. -/
structure AppModel where
  nodes : List String
  showIndex : Int
deriving DecidableEq, Repr

/-- The validNodeIndex test of App::handlePCR (line 406): 1-based index
within the current node count. -/
def validNodeIndex (st : AppModel) (i : Int) : Prop :=
  0 < i ∧ i ≤ (st.nodes.length : Int)

instance (st : AppModel) (i : Int) : Decidable (validNodeIndex st i) := by
  unfold validNodeIndex; infer_instance

/-- Insert an element before 0-based position i (append when i is at or
beyond the end). -/
def insertIdx (xs : List String) (i : Nat) (x : String) : List String :=
  xs.take i ++ [x] ++ xs.drop i

/-- Modelled from the spec: Pipeline::moveNode is not under src/.  The
spec says move relocates a Node: remove it from its 0-based source slot
and re-insert it at the 0-based target slot. -/
def moveElem (xs : List String) (f t : Nat) : List String :=
  insertIdx (xs.eraseIdx f) t (xs.getD f (""))

/-- The InsertNode branch of App::handlePCR (lines 412-424).  loadOk is
the result of Pipeline::addNode, i.e. whether the new node loaded
(Pipeline::addNode is not under src/ and is modelled from the spec:
on success the node is inserted at the requested 0-based slot, or
appended by the no-index overload). -/
def appInsert (st : AppModel) (path : String) (i : Int) (loadOk : Bool) : AppModel :=
  if validNodeIndex st i then
    if loadOk then
      { nodes := insertIdx st.nodes (i - 1).toNat path,
        showIndex := if i ≤ st.showIndex then st.showIndex + 1 else st.showIndex }
    else st
  else
    if loadOk then
      { nodes := st.nodes ++ [path],
        showIndex := if st.showIndex = (st.nodes.length : Int) then st.showIndex + 1 else st.showIndex }
    else st

/-- The RemoveNode branch of App::handlePCR (lines 434-440);
Pipeline::removeNode is modelled from the spec as deleting the 0-based
slot. -/
def appRemove (st : AppModel) (i : Int) : AppModel :=
  if validNodeIndex st i then
    { nodes := st.nodes.eraseIdx (i - 1).toNat,
      showIndex := if i ≤ st.showIndex then st.showIndex - 1 else st.showIndex }
  else st

/-- The MoveNode branch of App::handlePCR (lines 442-453): both 1-based
indices valid and distinct; the show index is decremented or incremented
only when strictly between the two indices, against the direction the
node travels. -/
def appMove (st : AppModel) (f t : Int) : AppModel :=
  if validNodeIndex st f ∧ ¬ f = t ∧ 0 < t ∧ t ≤ (st.nodes.length : Int) then
    { nodes := moveElem st.nodes (f - 1).toNat (t - 1).toNat,
      showIndex :=
        if min f t < st.showIndex ∧ st.showIndex < max f t then
          if f < t then st.showIndex - 1 else st.showIndex + 1
        else st.showIndex }
  else st

/-- The annotation keys the dispatch chain of src/unnamed/part_002 lines
200-218 matches (every other key falls through to the unrecognized-token
diagnostic). -/
def recognizedKeys : List String :=
  ["min", "off", "max", "on", "unit", "toggle", "switch", "color",
   "coord", "coords", "map", "filter", "filt"]

/-- Every diagnostic the dispatch chain emits for a recognized key is
key-specific (never the unrecognized-token one, never the pass-gap one
of the later generation phase). -/
theorem evalAnnot_recognized_diags (st : LoadState) (v : Option String) (k : String)
    (hk : k ∈ recognizedKeys) :
    ∀ d ∈ (evalAnnot st k v).2,
      (∀ k2, ¬ d = Diag.unrecognizedToken k2) ∧ ¬ d = Diag.missingIntermediatePasses := by
  intro d hd
  simp only [recognizedKeys, List.mem_cons, List.not_mem_nil, or_false] at hk
  rcases v with _ | v <;>
  rcases hk with rfl | rfl | rfl | rfl | rfl | rfl | rfl | rfl | rfl | rfl | rfl | rfl | rfl <;>
    · simp only [evalAnnot, String.reduceEq, false_or, or_false, or_true, true_or,
        if_false, if_true, ite_true, ite_false, eq_self_iff_true] at hd
      try split_ifs at hd
      all_goals simp_all

/-- A key outside the dispatch chain falls through to exactly the
unrecognized-token diagnostic, with the state untouched. -/
theorem evalAnnot_unrecognized (st : LoadState) (v : Option String) (k : String)
    (hk : ¬ k ∈ recognizedKeys) :
    evalAnnot st k v = (st, [Diag.unrecognizedToken k]) := by
  simp only [recognizedKeys, List.mem_cons, List.not_mem_nil, or_false, not_or] at hk
  obtain ⟨n1, n2, n3, n4, n5, n6, n7, n8, n9, n10, n11, n12, n13⟩ := hk
  simp [evalAnnot, n1, n2, n3, n4, n5, n6, n7, n8, n9, n10, n11, n12, n13]

/-- evalAnnot never emits the pass-gap diagnostic (that one belongs to
the pass-generation phase). -/
theorem evalAnnot_no_missing (st : LoadState) (k : String) (v : Option String) :
    ¬ Diag.missingIntermediatePasses ∈ (evalAnnot st k v).2 := by
  by_cases hk : k ∈ recognizedKeys
  · intro hd
    exact (evalAnnot_recognized_diags st v k hk _ hd).2 rfl
  · rw [evalAnnot_unrecognized st v k hk]
    simp

/-- Annotation folding never emits the pass-gap diagnostic. -/
theorem evalAnnList_no_missing (toks : List (String × Option String)) : ∀ (st : LoadState),
    ¬ Diag.missingIntermediatePasses ∈ (evalAnnList st toks).2 := by
  induction toks with
  | nil => intro st; simp [evalAnnList]
  | cons kv r ih =>
    intro st
    simp only [evalAnnList, List.mem_append]
    push_neg
    exact ⟨evalAnnot_no_missing st kv.1 kv.2, ih _⟩

/-- Token handling never emits the pass-gap diagnostic. -/
theorem stepTok_no_missing (st : LoadState) (s : String) :
    ¬ Diag.missingIntermediatePasses ∈ (stepTok st s).2 := by
  simp only [stepTok, uniformCheck]
  split_ifs <;> simp

/-- The analysis loop never emits the pass-gap diagnostic: it is emitted
only by the generation phase, after the loop. -/
theorem stepLex_no_missing (st : LoadState) (lx : Lexeme) :
    ¬ Diag.missingIntermediatePasses ∈ (stepLex st lx).2 := by
  cases lx with
  | comment c =>
    simp only [stepLex, stepComment]
    exact evalAnnList_no_missing _ st
  | tok s => exact stepTok_no_missing st s

/-- No prefix of the analysis loop emits the pass-gap diagnostic. -/
theorem runLex_no_missing (lxs : List Lexeme) : ∀ (st : LoadState),
    ¬ Diag.missingIntermediatePasses ∈ (runLex st lxs).2 := by
  induction lxs with
  | nil => intro st; simp [runLex]
  | cons lx r ih =>
    intro st
    simp only [runLex, List.mem_append]
    push_neg
    exact ⟨stepLex_no_missing st lx, ih _⟩

/-- Claim C10: a parameter-scoped annotation key (min, max, off, on,
unit, toggle, switch, color) appearing in a comment while no parameter is
current records only the token-only-valid-inside-a-parameter-comment
diagnostic and changes nothing — no parameter, no sticky coordinate or
filter mode; and extraction of the remaining tokens of the same comment
continues, so a coord key later in the comment still takes effect (shown
on a comment carrying a min key and then a coord key). -/
theorem c10_param_scope :
    (∀ (st : LoadState) (v : Option String) (k : String),
      st.hasParam = false →
      (k = "min" ∨ k = "max" ∨ k = "off" ∨ k = "on" ∨ k = "unit"
        ∨ k = "toggle" ∨ k = "switch" ∨ k = "color") →
      evalAnnot st k v = (st, [Diag.onlyInParamComment k]))
    ∧ (stepComment {} (" @min=0 @coord=pixel")).1.coordMode = CoordMapMode.Pixel
    ∧ (stepComment {} (" @min=0 @coord=pixel")).2 = [Diag.onlyInParamComment ("min")]
    ∧ (stepComment {} (" @min=0 @coord=pixel")).1.params = [] := by
  refine ⟨?_, by decide, by decide, by decide⟩
  intro st v k h hk
  rcases hk with rfl | rfl | rfl | rfl | rfl | rfl | rfl | rfl <;>
    simp [evalAnnot, h]

/-- Witness for C10: the min key with no current parameter and no value
leaves the initial state unchanged apart from the diagnostic. -/
theorem c10_param_scope_witness :
    evalAnnot {} ("min") none = ({}, [Diag.onlyInParamComment ("min")]) :=
  c10_param_scope.1 {} none ("min") rfl (Or.inl rfl)

/-- Claim C9: an annotation overriding a parameter type incompatibly with
the declared arity (color on a float or vec2 uniform, toggle or switch on
a non-float uniform) is parameter-local and recoverable: the state is
unchanged (the parameter keeps its arity-implied type) and exactly the
incompatible-format diagnostic is recorded; on a whole source with a
color key on a float uniform, the node still compiles (success, one
pass) with the parameter type Value and only the diagnostic recorded. -/
theorem c9_incompatible_override :
    (∀ (st : LoadState) (v : Option String),
      st.hasParam = true →
      ¬ st.paramDataType = GLSLToken.Vec3 → ¬ st.paramDataType = GLSLToken.Vec4 →
      evalAnnot st ("color") v = (st, [Diag.incompatibleFormat ("color") (lastName st)]))
    ∧ (∀ (st : LoadState) (v : Option String) (k : String),
      st.hasParam = true → ¬ st.paramDataType = GLSLToken.Float →
      (k = "toggle" ∨ k = "switch") →
      evalAnnot st k v = (st, [Diag.incompatibleFormat k (lastName st)]))
    ∧ (load (srcColorOnFloat)).success = true
    ∧ (load (srcColorOnFloat)).passCount = 1
    ∧ ((load (srcColorOnFloat)).params.headD {}).m_type = ParameterType.Value
    ∧ (load (srcColorOnFloat)).errs = [Diag.incompatibleFormat ("color") ("x")] := by
  refine ⟨?_, ?_, by decide, by decide, by decide, by decide⟩
  · intro st v h h3 h4
    simp [evalAnnot, h, h3, h4]
  · intro st v k h hf hk
    rcases hk with rfl | rfl <;> simp [evalAnnot, h, hf]

/-- Witness for C9: a color key on a current float-typed parameter named
x records the incompatibility and changes nothing else. -/
theorem c9_incompatible_override_witness :
    evalAnnot { hasParam := true, paramDataType := GLSLToken.Float,
                params := [{ m_name := "x" }] } ("color") none
      = ({ hasParam := true, paramDataType := GLSLToken.Float,
           params := [{ m_name := "x" }] },
         [Diag.incompatibleFormat ("color") ("x")]) := by
  have h := c9_incompatible_override.1
    { hasParam := true, paramDataType := GLSLToken.Float, params := [{ m_name := "x" }] }
    none rfl (by decide) (by decide)
  rw [h]; decide

/-- Claim C4 (amended): the keys the richer dialect recognizes are min,
max, off, on, unit, toggle, switch, color, coord, coords, map, filter and
filt — none of these ever yields an unrecognized-token diagnostic; every
other key, in particular the documented rgb, rgba, version and
gips_version, yields exactly the unrecognized-token diagnostic and
changes nothing. -/
theorem c4_recognized_keys :
    (∀ (st : LoadState) (v : Option String) (k : String), k ∈ recognizedKeys →
      ∀ (k2 : String), ¬ Diag.unrecognizedToken k2 ∈ (evalAnnot st k v).2)
    ∧ (∀ (st : LoadState) (v : Option String) (k : String), ¬ k ∈ recognizedKeys →
      evalAnnot st k v = (st, [Diag.unrecognizedToken k])) := by
  constructor
  · intro st v k hk k2 hd
    exact (evalAnnot_recognized_diags st v k hk _ hd).1 k2 rfl
  · intro st v k hk
    exact evalAnnot_unrecognized st v k hk

/-- Witness for C4: the recognized key min never yields the
unrecognized-token diagnostic, and the unrecognized key version yields
exactly it. -/
theorem c4_recognized_keys_witness :
    (¬ Diag.unrecognizedToken ("min") ∈ (evalAnnot {} ("min") none).2)
    ∧ evalAnnot {} ("version") (some ("1")) = ({}, [Diag.unrecognizedToken ("version")]) :=
  ⟨c4_recognized_keys.1 {} none ("min") (by decide) ("min"),
   c4_recognized_keys.2 {} (some ("1")) ("version") (by decide)⟩

/-- Counterexample for C4 as stated: the first comment of the shipped
shader Simple Blur+Sharpen.glsl carries the documented gips_version key,
and the extractor of the richer dialect reports it as an unrecognized token
(while still applying the coord and filter keys of the same comment). -/
theorem c4_counterexample :
    commentToks (" @gips_version=1 @coord=pixel @filter=off")
      = [(("gips_version"), some ("1")), (("coord"), some ("pixel")), (("filter"), some ("off"))]
    ∧ (stepComment {} (" @gips_version=1 @coord=pixel @filter=off")).2
      = [Diag.unrecognizedToken ("gips_version")]
    ∧ (stepComment {} (" @gips_version=1 @coord=pixel @filter=off")).1.coordMode
      = CoordMapMode.Pixel
    ∧ (stepComment {} (" @gips_version=1 @coord=pixel @filter=off")).1.texFilter = false := by
  refine ⟨by decide, by decide, by decide, by decide⟩

/-- Claim C7: for every remove(index) request with a valid 1-based index,
the node at that index is deleted and the active-stage index decrements
by one exactly when it was at least index, never going below the virtual
input stage 0. -/
theorem c7_remove (ns : List String) (sh i : Int)
    (h1 : 0 < i) (h2 : i ≤ (ns.length : Int)) (h3 : 0 ≤ sh) :
    (appRemove ⟨ns, sh⟩ i).nodes = ns.eraseIdx (i - 1).toNat
    ∧ (i ≤ sh → (appRemove ⟨ns, sh⟩ i).showIndex = sh - 1)
    ∧ (sh < i → (appRemove ⟨ns, sh⟩ i).showIndex = sh)
    ∧ 0 ≤ (appRemove ⟨ns, sh⟩ i).showIndex := by
  have hv : validNodeIndex ⟨ns, sh⟩ i := ⟨h1, h2⟩
  have hs : (appRemove ⟨ns, sh⟩ i).showIndex = if i ≤ sh then sh - 1 else sh := by
    simp [appRemove, hv]
  have hn : (appRemove ⟨ns, sh⟩ i).nodes = ns.eraseIdx (i - 1).toNat := by
    simp [appRemove, hv]
  refine ⟨hn, fun hc => ?_, fun hc => ?_, ?_⟩
  · rw [hs, if_pos hc]
  · rw [hs, if_neg (by omega)]
  · rw [hs]; split_ifs <;> omega

/-- Witness for C7, the spec example: removing node 2 while the active
stage is 2 leaves the nodes without the second one and active stage 1. -/
theorem c7_remove_witness :
    (appRemove ⟨["a", "b", "c"], 2⟩ 2).nodes = ["a", "c"]
    ∧ (appRemove ⟨["a", "b", "c"], 2⟩ 2).showIndex = 1 := by
  have h := c7_remove ["a", "b", "c"] 2 2 (by decide) (by decide) (by decide)
  refine ⟨h.1.trans (by decide), ?_⟩
  have h2 := h.2.1 (by decide)
  omega

/-- Claim C6 (amended): for an insert(source, atIndex) request whose node
loads successfully, with atIndex in range the node is inserted at atIndex
and the active-stage index increments by one exactly when it was at least
atIndex; with atIndex out of range the node is appended and the
active-stage index increments by one exactly when it equalled the old
node count (so the final output stays displayed), not when it was at
least the appended position. -/
theorem c6_insert (ns : List String) (sh i : Int) (path : String) :
    (validNodeIndex ⟨ns, sh⟩ i →
      (appInsert ⟨ns, sh⟩ path i true).nodes = insertIdx ns (i - 1).toNat path
      ∧ (i ≤ sh → (appInsert ⟨ns, sh⟩ path i true).showIndex = sh + 1)
      ∧ (sh < i → (appInsert ⟨ns, sh⟩ path i true).showIndex = sh))
    ∧ (¬ validNodeIndex ⟨ns, sh⟩ i →
      (appInsert ⟨ns, sh⟩ path i true).nodes = ns ++ [path]
      ∧ (sh = (ns.length : Int) → (appInsert ⟨ns, sh⟩ path i true).showIndex = sh + 1)
      ∧ (¬ sh = (ns.length : Int) → (appInsert ⟨ns, sh⟩ path i true).showIndex = sh)) := by
  constructor
  · intro hv
    have hs : (appInsert ⟨ns, sh⟩ path i true).showIndex
        = if i ≤ sh then sh + 1 else sh := by
      simp [appInsert, hv]
    have hn : (appInsert ⟨ns, sh⟩ path i true).nodes = insertIdx ns (i - 1).toNat path := by
      simp [appInsert, hv]
    refine ⟨hn, fun hc => ?_, fun hc => ?_⟩
    · rw [hs, if_pos hc]
    · rw [hs, if_neg (by omega)]
  · intro hv
    have hs : (appInsert ⟨ns, sh⟩ path i true).showIndex
        = if sh = (ns.length : Int) then sh + 1 else sh := by
      simp [appInsert, hv]
    have hn : (appInsert ⟨ns, sh⟩ path i true).nodes = ns ++ [path] := by
      simp [appInsert, hv]
    refine ⟨hn, fun hc => ?_, fun hc => ?_⟩
    · rw [hs, if_pos hc]
    · rw [hs, if_neg hc]

/-- Witness for C6, the spec example: inserting at index 2 while the
active stage is 3 (three nodes present) yields active stage 4. -/
theorem c6_insert_witness :
    (appInsert ⟨["a", "b", "c"], 3⟩ ("p") 2 true).showIndex = 4
    ∧ (appInsert ⟨["a", "b", "c"], 3⟩ ("p") 2 true).nodes = ["a", "p", "b", "c"] := by
  have h := (c6_insert ["a", "b", "c"] 3 2 ("p")).1 (by decide)
  refine ⟨?_, h.1.trans (by decide)⟩
  have h2 := h.2.1 (by decide)
  omega

/-- Counterexample for C6 as stated: with one node and active stage 1, an
out-of-range insert request (atIndex = 5) appends the new node at
position 2; the active stage was 1, strictly below the insertion point 2,
so by the claim it should stay 1, but the code increments it to 2. -/
theorem c6_counterexample :
    (appInsert ⟨["a"], 1⟩ ("p") 5 true).nodes = ["a", "p"]
    ∧ (appInsert ⟨["a"], 1⟩ ("p") 5 true).showIndex = 2
    ∧ ¬ ((2 : Int) ≤ 1) := by decide

/-- Claim C1 (amended): for every move(from, to) request with both
1-based indices valid and distinct, the node is relocated and the
active-stage index shifts by one against the direction in which the
moved node travels when it lies strictly between from and to; when it equals from or
to (or lies outside that range) it is unchanged — it does not travel with
the node. -/
theorem c1_move (ns : List String) (sh f t : Int)
    (h1 : 0 < f) (h2 : f ≤ (ns.length : Int)) (h3 : 0 < t)
    (h4 : t ≤ (ns.length : Int)) (h5 : ¬ f = t) :
    (appMove ⟨ns, sh⟩ f t).nodes = moveElem ns (f - 1).toNat (t - 1).toNat
    ∧ (min f t < sh ∧ sh < max f t →
        (appMove ⟨ns, sh⟩ f t).showIndex = if f < t then sh - 1 else sh + 1)
    ∧ (¬ (min f t < sh ∧ sh < max f t) →
        (appMove ⟨ns, sh⟩ f t).showIndex = sh) := by
  have hv : validNodeIndex ⟨ns, sh⟩ f ∧ ¬ f = t ∧ 0 < t
      ∧ t ≤ ((AppModel.mk ns sh).nodes.length : Int) := ⟨⟨h1, h2⟩, h5, h3, h4⟩
  have hs : (appMove ⟨ns, sh⟩ f t).showIndex
      = if min f t < sh ∧ sh < max f t then (if f < t then sh - 1 else sh + 1) else sh := by
    simp [appMove, hv]
  have hn : (appMove ⟨ns, sh⟩ f t).nodes = moveElem ns (f - 1).toNat (t - 1).toNat := by
    simp [appMove, hv]
  refine ⟨hn, fun hc => ?_, fun hc => ?_⟩
  · rw [hs, if_pos hc]
  · rw [hs, if_neg hc]

/-- Witness for C1: moving node 1 to position 3 while the active stage is
2 (strictly between) shifts the active stage down to 1, against the
upward travel of the moved node. -/
theorem c1_move_witness :
    (appMove ⟨["a", "b", "c"], 2⟩ 1 3).showIndex = 1
    ∧ (appMove ⟨["a", "b", "c"], 2⟩ 1 3).nodes = ["b", "c", "a"] := by
  have h := c1_move ["a", "b", "c"] 2 1 3 (by decide) (by decide) (by decide) (by decide) (by decide)
  refine ⟨?_, h.1.trans (by decide)⟩
  have h2 := h.2.1 (by decide)
  simpa using h2

/-- Counterexample for C1 as stated: moving node 1 to position 3 while
the active stage equals the source index 1.  The claim says the active
stage travels with the node to 3; the code leaves it at 1. -/
theorem c1_counterexample :
    (appMove ⟨["a", "b", "c"], 1⟩ 1 3).showIndex = 1
    ∧ ¬ (appMove ⟨["a", "b", "c"], 1⟩ 1 3).showIndex = 3 := by decide

/-- The entry-point call of the generated output statement: run with the
pass-number suffix and the shape-appropriate argument. -/
def entryCall (input : PassInput) (i : Nat) (sp : Bool) : String :=
  "run"
  ++ (if ¬ i = 0 ∨ sp = false then "_pass" ++ toString (i + 1) else "")
  ++ (match input with
      | PassInput.Coord => "(gips_pos)"
      | PassInput.RGB => "(color.rgb)"
      | PassInput.RGBA => "(color)")

/-- The output statement as the spec describes it: for a declared RGB
output the entry-point call wrapped in a vec4 constructor appending
alpha = 1.0 for Position input and the pre-fetched source alpha for
color input; for a declared RGBA output the bare call, no coercion
wrapper. -/
def specOutStmt (input : PassInput) (output : PassOutput) (i : Nat) (sp : Bool) : String :=
  if output = PassOutput.RGB then
    "  gips_frag = " ++ "vec4(" ++ entryCall input i sp
    ++ (if input = PassInput.Coord then ", 1.0)" else ", color.a)") ++ ";\n\x7d\n"
  else
    "  gips_frag = " ++ entryCall input i sp ++ ";\n\x7d\n"

/-- Claim C8: for every assembled pass, the generated output statement
is exactly what the spec describes — with declared output RGB the
entry-point call is wrapped in a vec4 constructor appending alpha 1.0
(Position input) or the pre-fetched source alpha (RGB or RGBA input);
with declared output RGBA no coercion wrapper is added. -/
theorem c8_output_statement :
    ∀ (input : PassInput) (output : PassOutput) (i : Nat) (sp : Bool),
      outStmtGen input output i sp = specOutStmt input output i sp := by
  intro input output i sp
  cases output <;> cases input <;>
    simp [outStmtGen, specOutStmt, entryCall, ← String.append_assoc, String.append_empty]

/-- Claim C3 (amended): loading a source that declares the uniform
vec3 c with default vec3(1,0,0) and no following comment produces one
parameter named c with empty description, semantic type Value3 (the
arity-implied default of the authoritative dialect; RGB needs an
explicit color annotation there, and only the older dialect defaulted
vec3 to RGB) and default value (1, 0, 0). -/
theorem c3_vec3_default :
    ((load src3).params.map (fun p => (p.m_name, p.m_desc, p.m_type, p.m_value.take 3)))
      = [(("c"), (""), ParameterType.Value3,
          [DecFloat.ofInt 1, DecFloat.ofInt 0, DecFloat.ofInt 0])]
    ∧ (load src3).success = true := by decide

/-- Counterexample for C3 as stated: the parameter declared by the
uniform vec3 declaration quoted by the spec gets semantic type Value3, not
RGB, in the authoritative dialect. -/
theorem c3_counterexample :
    ((load src3).params.headD {}).m_type = ParameterType.Value3
    ∧ ¬ ((load src3).params.headD {}).m_type = ParameterType.RGB := by decide

/-- Claim C5 (amended): when pass 0 is declared, the compiled-pass count
is the length of the contiguous prefix of declared passes starting at
pass 0, exactly that many passes are assembled (earlier ones remain,
later ones are discarded), and the truncation diagnostic is recorded
exactly when some declared pass lies beyond that prefix — so a
contiguous run_pass1..run_pass3 source compiles three passes with no
diagnostic, while a source with a gap keeps the prefix and gets the
diagnostic. -/
theorem c5_pass_prefix (code : String)
    (h : (runLex {} (tokenize code)).1.passMask.q0 = true) :
    (load code).passCount = contigLen (runLex {} (tokenize code)).1.passMask
    ∧ (load code).assembled.length = (load code).passCount
    ∧ (Diag.missingIntermediatePasses ∈ (load code).errs
        ↔ maskAny (clearBelow (runLex {} (tokenize code)).1.passMask
            (contigLen (runLex {} (tokenize code)).1.passMask)) = true) := by
  have hne : ¬ (runLex {} (tokenize code)).1.passMask.q0 = false := by simp [h]
  have hload : load code
      = finalize code (runLex {} (tokenize code)).1 (runLex {} (tokenize code)).2 := rfl
  rw [hload]
  unfold finalize
  rw [if_neg hne]
  refine ⟨rfl, by simp, ?_⟩
  by_cases hm : maskAny (clearBelow (runLex {} (tokenize code)).1.passMask
      (contigLen (runLex {} (tokenize code)).1.passMask)) = true
  · simp [hm]
  · simp [hm, runLex_no_missing (tokenize code) {}]

/-- Witness for C5, the gap example of the spec: run_pass1 and run_pass3
without run_pass2 compiles exactly one pass and records the truncation
diagnostic. -/
theorem c5_pass_prefix_witness :
    (load srcPass13).passCount = 1
    ∧ Diag.missingIntermediatePasses ∈ (load srcPass13).errs := by
  have h := c5_pass_prefix srcPass13 (by decide)
  exact ⟨h.1.trans (by decide), (h.2.2).mpr (by decide)⟩

/-- Counterexample for C5 as stated: run_pass1 through run_pass3 with
run_pass4 absent compiles three passes but, contrary to the claim,
records no truncation diagnostic at all (the diagnostic only appears
when a declared pass is discarded at a gap). -/
theorem c5_counterexample :
    (load srcPass123).passCount = 3
    ∧ (load srcPass123).errs = [] := by decide

/-- A lexeme that carries no coord / coords / map annotation key. -/
def coordKeyFree (lx : Lexeme) : Bool :=
  match lx with
  | Lexeme.comment c =>
    (commentToks c).all (fun kv => !(kv.1 == "coord" || kv.1 == "coords" || kv.1 == "map"))
  | Lexeme.tok _ => true

/-- Invariant for sources without coordinate-mode annotations: the
sticky coordMode still has its initial Pixel value, and every pass whose
passMask bit is set was recorded with coordMode Pixel. -/
def PixInv (st : LoadState) : Prop :=
  st.coordMode = CoordMapMode.Pixel
  ∧ ∀ i, i < 4 → st.passMask.get i = true →
      (st.passes.get i).coordMode = CoordMapMode.Pixel

/-- Reading a slot of an updated Quad. -/
theorem quad_get_set {α : Type} (q : Quad α) (a : α) (i j : Nat)
    (hi : i < 4) (hj : j < 4) :
    (q.set i a).get j = if i = j then a else q.get j := by
  interval_cases i <;> interval_cases j <;> simp [Quad.set, Quad.get]

/-- The invariant only looks at coordMode, passMask and passes, so any
step preserving those fields preserves it. -/
theorem inv_of_fields {s1 s2 : LoadState}
    (hc : s2.coordMode = s1.coordMode) (hm : s2.passMask = s1.passMask)
    (hp : s2.passes = s1.passes) (h : PixInv s1) : PixInv s2 := by
  unfold PixInv at h ⊢
  rw [hc, hm, hp]
  exact h

/-- Annotation evaluation never touches the pass bookkeeping (passMask,
passes, inputs). -/
theorem evalAnnot_structFields (st : LoadState) (k : String) (v : Option String) :
    (evalAnnot st k v).1.passMask = st.passMask
    ∧ (evalAnnot st k v).1.passes = st.passes
    ∧ (evalAnnot st k v).1.inputs = st.inputs := by
  by_cases hr : k ∈ recognizedKeys
  · simp only [recognizedKeys, List.mem_cons, List.not_mem_nil, or_false] at hr
    rcases v with _ | v <;>
    rcases hr with rfl | rfl | rfl | rfl | rfl | rfl | rfl | rfl | rfl | rfl | rfl | rfl | rfl <;>
      · simp only [evalAnnot, String.reduceEq, false_or, or_false, or_true, true_or,
          if_false, if_true, ite_true, ite_false]
        try split_ifs
        all_goals exact ⟨by trivial, by trivial, by trivial⟩
  · rw [evalAnnot_unrecognized st v k hr]
    exact ⟨rfl, rfl, rfl⟩

/-- Annotation evaluation changes the sticky coordMode only through the
coord / coords / map keys. -/
theorem evalAnnot_coordMode (st : LoadState) (k : String) (v : Option String)
    (h1 : ¬ k = "coord") (h2 : ¬ k = "coords") (h3 : ¬ k = "map") :
    (evalAnnot st k v).1.coordMode = st.coordMode := by
  by_cases hr : k ∈ recognizedKeys
  · simp only [recognizedKeys, List.mem_cons, List.not_mem_nil, or_false] at hr
    rcases v with _ | v <;>
    rcases hr with rfl | rfl | rfl | rfl | rfl | rfl | rfl | rfl | rfl | rfl | rfl | rfl | rfl <;>
      first
      | exact absurd rfl h1
      | exact absurd rfl h2
      | exact absurd rfl h3
      | · simp only [evalAnnot, String.reduceEq, false_or, or_false, or_true, true_or,
            if_false, if_true, ite_true, ite_false, eq_self_iff_true]
          try split_ifs
          all_goals rfl
  · rw [evalAnnot_unrecognized st v k hr]

/-- Folding a coord-free annotation list preserves the sticky coordMode
and the pass bookkeeping. -/
theorem evalAnnList_inv (toks : List (String × Option String))
    (hfree : ∀ kv ∈ toks, ¬ kv.1 = "coord" ∧ ¬ kv.1 = "coords" ∧ ¬ kv.1 = "map") :
    ∀ st : LoadState,
      (evalAnnList st toks).1.coordMode = st.coordMode
      ∧ (evalAnnList st toks).1.passMask = st.passMask
      ∧ (evalAnnList st toks).1.passes = st.passes := by
  induction toks with
  | nil => intro st; exact ⟨rfl, rfl, rfl⟩
  | cons kv r ih =>
    intro st
    have hkv := hfree kv (List.mem_cons_self kv r)
    have hr := ih (fun x hx => hfree x (List.mem_cons_of_mem kv hx))
    have e1 := evalAnnot_coordMode st kv.1 kv.2 hkv.1 hkv.2.1 hkv.2.2
    have e2 := evalAnnot_structFields st kv.1 kv.2
    have h3 := hr (evalAnnot st kv.1 kv.2).1
    simp only [evalAnnList]
    exact ⟨h3.1.trans e1, h3.2.1.trans e2.1, h3.2.2.trans e2.2.1⟩

/-- Comment handling preserves the pass bookkeeping, and preserves the
sticky coordMode when the comment carries no coord key. -/
theorem stepComment_inv (st : LoadState) (c : String)
    (hfree : ∀ kv ∈ commentToks c, ¬ kv.1 = "coord" ∧ ¬ kv.1 = "coords" ∧ ¬ kv.1 = "map")
    (h : PixInv st) : PixInv (stepComment st c).1 := by
  have he := evalAnnList_inv (commentToks c) hfree st
  refine inv_of_fields ?_ ?_ ?_ h
  · show (stepComment st c).1.coordMode = st.coordMode
    unfold stepComment
    dsimp only
    split_ifs <;> exact he.1
  · show (stepComment st c).1.passMask = st.passMask
    unfold stepComment
    dsimp only
    split_ifs <;> exact he.2.1
  · show (stepComment st c).1.passes = st.passes
    unfold stepComment
    dsimp only
    split_ifs <;> exact he.2.2

/-- The uniform-declaration section touches neither coordMode nor the
pass bookkeeping. -/
theorem uniformCheck_fields (st : LoadState) (s : String) (tt : Quad GLSLToken) :
    (uniformCheck st s tt).1.coordMode = st.coordMode
    ∧ (uniformCheck st s tt).1.passMask = st.passMask
    ∧ (uniformCheck st s tt).1.passes = st.passes := by
  unfold uniformCheck
  split_ifs <;> exact ⟨rfl, rfl, rfl⟩

/-- Value capture touches neither coordMode nor the pass bookkeeping. -/
theorem captureValue_fields (st : LoadState) (s : String) :
    (captureValue st s).coordMode = st.coordMode
    ∧ (captureValue st s).passMask = st.passMask
    ∧ (captureValue st s).passes = st.passes := by
  unfold captureValue
  split_ifs
  · split <;> exact ⟨rfl, rfl, rfl⟩
  · exact ⟨rfl, rfl, rfl⟩

/-- Pass recording preserves the sticky coordMode. -/
theorem passCheck_coordMode (st : LoadState) (tt : Quad GLSLToken) :
    (passCheck st tt).coordMode = st.coordMode := by
  unfold passCheck
  dsimp only
  split_ifs <;> rfl

/-- Pass recording preserves the invariant: the bit it sets points at a
pass configuration recorded with the current (still Pixel) coordMode. -/
theorem passCheck_inv (st : LoadState) (tt : Quad GLSLToken)
    (h : PixInv st) : PixInv (passCheck st tt) := by
  have hcp : (match tt.q2 with
      | GLSLToken.RunSingle => 0
      | GLSLToken.RunPass1 => 0
      | GLSLToken.RunPass2 => 1
      | GLSLToken.RunPass3 => 2
      | _ => (3 : Nat)) < 4 := by
    cases tt.q2 <;> simp
  constructor
  · rw [passCheck_coordMode]
    exact h.1
  · intro i hi hbit
    unfold passCheck at hbit ⊢
    dsimp only at hbit ⊢
    rw [if_neg (by simpa [MaxPasses, Nat.not_le] using hcp)] at hbit ⊢
    dsimp only at hbit ⊢
    rw [quad_get_set _ _ _ _ hcp hi] at hbit
    rw [quad_get_set _ _ _ _ hcp hi]
    split_ifs with hij
    · exact h.1
    · rw [if_neg hij] at hbit
      exact h.2 i hi hbit

/-- Token handling preserves the invariant. -/
theorem stepTok_inv (st : LoadState) (s : String)
    (h : PixInv st) : PixInv (stepTok st s).1 := by
  unfold stepTok
  dsimp only
  split_ifs
  · exact h
  · have hu := uniformCheck_fields { st with tt := ⟨lookupTok s, st.tt.q0, st.tt.q1, st.tt.q2⟩ } s
      ⟨lookupTok s, st.tt.q0, st.tt.q1, st.tt.q2⟩
    exact inv_of_fields hu.1 hu.2.1 hu.2.2 h
  · exact h
  · have hc := captureValue_fields { st with tt := ⟨lookupTok s, st.tt.q0, st.tt.q1, st.tt.q2⟩ } s
    exact inv_of_fields hc.1 hc.2.1 hc.2.2 h
  · have hc := captureValue_fields { st with tt := ⟨lookupTok s, st.tt.q0, st.tt.q1, st.tt.q2⟩ } s
    exact passCheck_inv _ _ (inv_of_fields hc.1 hc.2.1 hc.2.2 h)
  · have hc := captureValue_fields { st with tt := ⟨lookupTok s, st.tt.q0, st.tt.q1, st.tt.q2⟩ } s
    exact inv_of_fields hc.1 hc.2.1 hc.2.2 h

/-- The whole analysis loop preserves the invariant on coord-free
sources. -/
theorem runLex_inv (lxs : List Lexeme)
    (hfree : ∀ lx ∈ lxs, coordKeyFree lx = true) :
    ∀ st : LoadState, PixInv st → PixInv (runLex st lxs).1 := by
  induction lxs with
  | nil => intro st h; exact h
  | cons lx r ih =>
    intro st h
    have hstep : PixInv (stepLex st lx).1 := by
      cases lx with
      | comment c =>
        have hf := hfree (Lexeme.comment c) (List.mem_cons_self _ r)
        simp only [coordKeyFree, List.all_eq_true] at hf
        refine stepComment_inv st c ?_ h
        intro kv hkv
        have := hf kv hkv
        simp only [Bool.not_eq_true', Bool.or_eq_false_iff, beq_eq_false_iff_ne, ne_eq] at this
        exact ⟨this.1.1, this.1.2, this.2⟩
      | tok s => exact stepTok_inv st s h
    have hr := ih (fun x hx => hfree x (List.mem_cons_of_mem lx hx)) (stepLex st lx).1 hstep
    simpa only [runLex] using hr

/-- The contiguous declared prefix is at most MaxPasses long. -/
theorem contigLen_le (m : Quad Bool) : contigLen m ≤ 4 := by
  unfold contigLen
  split_ifs <;> omega

/-- Every pass inside the contiguous prefix has its passMask bit set. -/
theorem contig_get (m : Quad Bool) (i : Nat) (h : i < contigLen m) :
    m.get i = true := by
  unfold contigLen at h
  split_ifs at h <;> interval_cases i <;> simp_all [Quad.get]

/-- Claim C2 (amended): in a source carrying no coord / coords / map
annotation anywhere, every assembled pass gets coordinate-mapping mode
Pixel — the actual initial sticky default — when its input shape is
Position, and None (forced during generation) otherwise.  The claimed
default None is wrong for Position-input passes. -/
theorem c2_coord_mode (code : String)
    (hfree : ∀ lx ∈ tokenize code, coordKeyFree lx = true) :
    ∀ i, i < (load code).passCount →
      ((load code).passes.get i).coordMode
        = (if (load code).inputs.get i = PassInput.Coord
           then CoordMapMode.Pixel else CoordMapMode.None) := by
  intro i hi
  have hinv : PixInv (runLex {} (tokenize code)).1 := by
    refine runLex_inv (tokenize code) hfree {} ⟨rfl, ?_⟩
    intro j hj hbit
    interval_cases j <;> simp [Quad.get, Quad.fill] at hbit
  have hload : load code
      = finalize code (runLex {} (tokenize code)).1 (runLex {} (tokenize code)).2 := rfl
  rw [hload] at hi ⊢
  unfold finalize at hi ⊢
  by_cases h0 : (runLex {} (tokenize code)).1.passMask.q0 = false
  · rw [if_pos h0] at hi
    simp at hi
  · rw [if_neg h0] at hi ⊢
    dsimp only at hi ⊢
    have hi4 : i < 4 := lt_of_lt_of_le hi (contigLen_le _)
    have hbit := contig_get _ i hi
    have hpix := hinv.2 i hi4 hbit
    interval_cases i <;>
      · simp only [Quad.get] at hpix ⊢
        split_ifs with hcond hin <;> simp_all

/-- Witness for C2: a Position-input single-pass source with no
annotations gets coordinate mode Pixel on its pass. -/
theorem c2_coord_mode_witness :
    ((load srcCoordRun).passes.get 0).coordMode
      = (if (load srcCoordRun).inputs.get 0 = PassInput.Coord
         then CoordMapMode.Pixel else CoordMapMode.None) :=
  c2_coord_mode srcCoordRun (by decide) 0 (by decide)

/-- Counterexample for C2 as stated: an annotation-free Position-input
pass has coordinate-mapping mode Pixel, not the claimed default None. -/
theorem c2_counterexample :
    ((load srcCoordRun).passes.get 0).coordMode = CoordMapMode.Pixel
    ∧ ¬ ((load srcCoordRun).passes.get 0).coordMode = CoordMapMode.None
    ∧ (load srcCoordRun).inputs.get 0 = PassInput.Coord
    ∧ (load srcCoordRun).passCount = 1
    ∧ (∀ lx ∈ tokenize srcCoordRun, coordKeyFree lx = true) := by decide

end GIPS
